import Mathlib

/-!
Verification development for the Repo-Analyzer service.

The Python sources are shallowly embedded as follows:
- Python/JSON values are the inductive `Json` (Python `None` is `Json.null`);
  a raw LLM response text is represented by the outcome of `json.loads` on it,
  i.e. by an `Option Json` (`none` = the text is not valid JSON), since the
  service only consumes responses through `json.loads` (the one free-text
  response, the project overview, is never stored or read).
- The SQLAlchemy store is `DBState` (one list of rows per table).  The working
  session state and the list of committed snapshots are carried in `RunState`;
  `db.commit()` appends the working state to the committed list.  Readers in
  other sessions observe only committed snapshots; queries inside the run read
  the working state (SQLAlchemy autoflush).
- External collaborators (GitHub HTTP calls, the Gemini transport, the file
  prioritizer from `utils/file_filter.py`, which is not part of the sources)
  are an `Oracle` of stubbed responses; every outbound call appends an
  `Event` to the trace.
- `datetime.utcnow()` is the fixed token `pyUtcnow` and `uuid.uuid4()` is a
  counter-indexed fresh string: timestamps and id texts are never inspected by
  the service logic.
- Python exceptions are `PyErr` threaded through the `M` state monad;
  `mTryCatch` mirrors `try/except`.
-/

/-- A JSON value, also standing for the Python values the service passes
around (`Json.null` is Python `None`). -/
inductive Json where
  | null
  | bool (b : Bool)
  | num (n : Int)
  | str (s : String)
  | arr (items : List Json)
  | obj (fields : List (String × Json))

/-- Python `d.get(key)` on a dict represented as an association list:
the stored value when the key is present, else `None`. -/
def pyGet (fields : List (String × Json)) (key : String) : Json :=
  match fields.find? (fun kv => kv.1 == key) with
  | some kv => kv.2
  | none => Json.null

/-- Python `d.get(key, dflt)`. -/
def pyGetD (fields : List (String × Json)) (key : String) (dflt : Json) : Json :=
  match fields.find? (fun kv => kv.1 == key) with
  | some kv => kv.2
  | none => dflt

mutual

/-- Python `json.dumps` (string escaping and whitespace options are not
reproduced; the service never reads these strings back). -/
def jsonDumps : Json → String
  | Json.null => "null"
  | Json.bool b => if b then "true" else "false"
  | Json.num n => toString n
  | Json.str s => "\"" ++ s ++ "\""
  | Json.arr items => "[" ++ jsonDumpsItems items ++ "]"
  | Json.obj fields => "\x7b" ++ jsonDumpsFields fields ++ "\x7d"

/-- Comma-separated serialization of JSON array items. -/
def jsonDumpsItems : List Json → String
  | [] => ""
  | [x] => jsonDumps x
  | x :: rest => jsonDumps x ++ ", " ++ jsonDumpsItems rest

/-- Comma-separated serialization of JSON object fields. -/
def jsonDumpsFields : List (String × Json) → String
  | [] => ""
  | [(k, v)] => "\"" ++ k ++ "\": " ++ jsonDumps v
  | (k, v) :: rest => "\"" ++ k ++ "\": " ++ jsonDumps v ++ ", " ++ jsonDumpsFields rest

end

/-- Embeds the helper `ensure_string` of
`AnalysisService.analyze_repository`: `None` becomes `''`, lists and dicts
are JSON-encoded, strings pass through, anything else is `str(value)`. -/
def ensure_string : Json → String
  | Json.null => ""
  | Json.arr items => jsonDumps (Json.arr items)
  | Json.obj fields => jsonDumps (Json.obj fields)
  | Json.str s => s
  | Json.bool b => if b then "True" else "False"
  | Json.num n => toString n

/-- Whether a Python value is a dict (the only values with a `.get` method
among those reaching the tech-stack storage loop). -/
def Json.isObj : Json → Bool
  | Json.obj _ => true
  | _ => false

/-- Reads a JSON string value, for stating theorems over `String` only. -/
def jsonStr? : Json → Option String
  | Json.str s => some s
  | _ => none

/-- Row of the `repositories` table (`models/schemas.py`). -/
structure RepositoryRow where
  id : String
  repo_url : String
  owner : String
  name : String
  primary_language : Option String
  created_at : Option String
  analyzed_at : String
deriving DecidableEq

/-- Row of the `analysis_sessions` table (`models/schemas.py`).  Note the
table has no error-message column. -/
structure AnalysisSessionRow where
  id : String
  repo_id : String
  status : String
  started_at : String
  completed_at : Option String
deriving DecidableEq

/-- Row of the `repo_files` table. -/
structure RepoFileRow where
  id : String
  repo_id : String
  file_path : String
  language : String
  role : String
  summary : String
deriving DecidableEq

/-- Row of the `tech_stack` table.  The value columns hold whatever Python
value `tech_item.get` produced, hence `Json`. -/
structure TechStackRow where
  id : String
  repo_id : String
  name : Json
  category : Json
  reasoning : Json

/-- Row of the `architecture_summary` table (primary key `repo_id`). -/
structure ArchitectureSummaryRow where
  repo_id : String
  overview : String
  components : String
  data_flow : String
deriving DecidableEq

/-- Row of the `issues_insights` table (primary key `repo_id`). -/
structure IssuesInsightsRow where
  repo_id : String
  recurring_problems : String
  risky_areas : String
  active_features : String
deriving DecidableEq

/-- Row of the `contributor_guide` table (primary key `repo_id`). -/
structure ContributorGuideRow where
  repo_id : String
  getting_started : String
  safe_areas : String
  caution_areas : String
  feature_extension_guide : String
deriving DecidableEq

/-- The relational store: one list of rows per table of `models/schemas.py`
(the `qa_logs` table is omitted: no claim concerns `answer_question`). -/
structure DBState where
  repositories : List RepositoryRow
  sessions : List AnalysisSessionRow
  tech_stack : List TechStackRow
  architecture_summary : List ArchitectureSummaryRow
  issues_insights : List IssuesInsightsRow
  contributor_guide : List ContributorGuideRow
  repo_files : List RepoFileRow

/-- The empty store. -/
def emptyDB : DBState :=
  { repositories := [], sessions := [], tech_stack := [],
    architecture_summary := [], issues_insights := [],
    contributor_guide := [], repo_files := [] }

/-- The five prompt templates of `GeminiService`; each template contains its
distinctive marker substring (PROJECT OVERVIEW, TECH STACK, ARCHITECTURE,
ISSUES ANALYSIS, CONTRIBUTOR GUIDE), on which `_mock_response` dispatches.
Prompts are represented by their template; the interpolated context is
assumed not to contain another template's marker. -/
inductive PromptKind where
  | overview
  | techStack
  | architecture
  | issues
  | guide
deriving DecidableEq

/-- One observable step: an outbound collaborator call or a database
transaction commit. -/
inductive Event where
  | ghMetadata (owner name : String)
  | ghReadme (owner name : String)
  | ghTree (owner name : String)
  | ghFileContent (owner name path : String)
  | ghIssues (owner name state : String)
  | llmCall (kind : PromptKind)
  | commitEvt
deriving DecidableEq

/-- Number of LLM transport calls in a trace. -/
def countLlm (events : List Event) : Nat :=
  events.countP (fun e => match e with | Event.llmCall _ => true | _ => false)

/-- Number of structured-generation LLM calls in a trace (the four
JSON-expecting prompts; the project-overview prompt is free text). -/
def countStructuredLlm (events : List Event) : Nat :=
  events.countP (fun e =>
    match e with
    | Event.llmCall PromptKind.overview => false
    | Event.llmCall _ => true
    | _ => false)

/-- A Python exception value. -/
inductive PyErr where
  | valueError (msg : String)
  | attributeError (msg : String)
deriving DecidableEq

/-- Python `str(e)` on an exception. -/
def PyErr.message : PyErr → String
  | PyErr.valueError msg => msg
  | PyErr.attributeError msg => msg

/-- The fixed token standing for `datetime.utcnow()`. -/
def pyUtcnow : String := "utcnow"

/-- Mutable run context: the working database session, the snapshots made
visible by commits, the trace of observable events, the uuid source, and the
Python local variable `session` of `analyze_repository` (`none` = Python
`None`, `some sid` = the created `AnalysisSession` object). -/
structure RunState where
  db : DBState
  committed : List DBState
  events : List Event
  uuidCounter : Nat
  sessionVar : Option String

/-- State-and-exceptions computation over `RunState`. -/
def M (α : Type) : Type := RunState → Except PyErr α × RunState

instance instMonadM : Monad M where
  pure a := fun s => (Except.ok a, s)
  bind x f := fun s =>
    match x s with
    | (Except.ok a, s2) => f a s2
    | (Except.error e, s2) => (Except.error e, s2)

/-- Raise a Python exception. -/
def mRaise {α : Type} (e : PyErr) : M α := fun s => (Except.error e, s)

/-- Read the run state. -/
def mGet : M RunState := fun s => (Except.ok s, s)

/-- Update the run state. -/
def mModify (f : RunState → RunState) : M Unit := fun s => (Except.ok (), f s)

/-- Append one observable event. -/
def emit (e : Event) : M Unit :=
  mModify (fun s => { s with events := s.events ++ [e] })

/-- Embeds `await db.commit()`: the working state becomes visible as a new
committed snapshot. -/
def commitDB : M Unit :=
  mModify (fun s =>
    { s with committed := s.committed ++ [s.db], events := s.events ++ [Event.commitEvt] })

/-- Embeds `str(uuid.uuid4())` as a counter-indexed fresh string. -/
def freshId : M String :=
  fun s => (Except.ok (toString s.uuidCounter), { s with uuidCounter := s.uuidCounter + 1 })

/-- Update the working database session. -/
def modifyDB (f : DBState → DBState) : M Unit :=
  mModify (fun s => { s with db := f s.db })

/-- Embeds Python `try: body except Exception as e: handler`. -/
def mTryCatch {α : Type} (body : M α) (handler : PyErr → M α) : M α := fun s =>
  match body s with
  | (Except.ok a, s2) => (Except.ok a, s2)
  | (Except.error e, s2) => handler e s2

/-- Python `s.rstrip('/')`. -/
def pyRstripSlash (s : String) : String :=
  String.mk ((s.data.reverse.dropWhile (fun c => c == '/')).reverse)

/-- Python `s.replace('.git', '')`: every non-overlapping occurrence of the
substring `.git`, scanned left to right, is deleted. -/
def removeDotGit : List Char → List Char
  | '.' :: 'g' :: 'i' :: 't' :: rest => removeDotGit rest
  | c :: rest => c :: removeDotGit rest
  | [] => []

/-- Consume the literal at the front of the text, if present. -/
def dropLit : List Char → List Char → Option (List Char)
  | [], s => some s
  | c :: lr, d :: sr => if c == d then dropLit lr sr else none
  | _ :: _, [] => none

/-- Attempt of the regex `(?:https?://)?(?:www\.)?github\.com/([^/]+)/([^/]+)`
at one start position.  The scheme, `www.` and `github.com` literals start
with pairwise distinct characters, so at a given position at most one choice
of each optional group can proceed and no backtracking is needed; the two
greedy `[^/]+` groups are maximal slash-free runs. -/
def matchGithubAt (s : List Char) : Option (String × String) :=
  let s1 := match dropLit "https://".data s with
            | some r => r
            | none => match dropLit "http://".data s with
                      | some r => r
                      | none => s
  let s2 := match dropLit "www.".data s1 with
            | some r => r
            | none => s1
  match dropLit "github.com/".data s2 with
  | none => none
  | some rest =>
      let owner := rest.takeWhile (fun c => c != '/')
      if owner.isEmpty then none
      else
        match rest.drop owner.length with
        | '/' :: rest2 =>
            let repo := rest2.takeWhile (fun c => c != '/')
            if repo.isEmpty then none
            else some (String.mk owner, String.mk repo)
        | _ => none

/-- Python `re.search` for the pattern above: the leftmost position at which
the pattern matches wins. -/
def reSearchGithub : List Char → Option (String × String)
  | [] => none
  | c :: rest =>
      match matchGithubAt (c :: rest) with
      | some r => some r
      | none => reSearchGithub rest

/-- Embeds `GitHubService.parse_repo_url`: strip trailing slashes, delete
every `.git` occurrence, then regex-search for owner and repo name.  The
error value carries the `ValueError` message. -/
def parse_repo_url (repo_url : String) : Except String (String × String) :=
  let cleaned := String.mk (removeDotGit (pyRstripSlash repo_url).data)
  match reSearchGithub cleaned.data with
  | some pair => Except.ok pair
  | none => Except.error ("Invalid GitHub repository URL: " ++ cleaned)

/-- Result of `GitHubService.get_repo_metadata` as consumed by the pipeline:
the `language` and `created_at` entries of the repository JSON (absent or
JSON-null entries are `none`). -/
structure Metadata where
  language : Option String
  created_at : Option String
deriving DecidableEq

/-- An entry of the repository tree. -/
structure TreeEntry where
  path : String
  type : String
deriving DecidableEq

/-- Modelled from the spec: an item returned by the file prioritizer
(`FileFilter.filter_important_files`, whose module `utils/file_filter.py` is
not among the sources).  The spec fixes the collaborator contract
`prioritizeFiles(tree, maxCount) -> ordered [ \x7b path, language, role,
priority \x7d ]`, so every item carries all four fields and the dict-get
defaults in the storage loop never fire. -/
structure FileInfo where
  path : String
  language : String
  role : String
  priority : Nat
deriving DecidableEq

/-- A GitHub issue as used by the pipeline (labels only feed prompt text). -/
structure Issue where
  title : String
deriving DecidableEq

/-- Outcome of one Gemini transport call: the parse outcome of the returned
text, or a raised transport error. -/
inductive LlmResult where
  | ok (parsed : Option Json)
  | err (msg : String)

/-- Stubbed responses of all external collaborators plus the file prioritizer
contract; one fixed stub per run keeps the embedding deterministic. -/
structure Oracle where
  metadata : Except String Metadata
  readme : Option String
  tree : List TreeEntry
  filterImportant : List TreeEntry → Nat → List FileInfo
  fileContent : String → Option String
  issues : String → List Issue
  llm : PromptKind → LlmResult

/-- Embeds `GitHubService.get_repo_metadata`: one API call; HTTP failures
surface as `ValueError` with the captured message. -/
def get_repo_metadata (oracle : Oracle) (owner repo : String) : M Metadata := do
  emit (Event.ghMetadata owner repo)
  match oracle.metadata with
  | Except.ok m => pure m
  | Except.error msg => mRaise (PyErr.valueError msg)

/-- Embeds `GitHubService.get_readme`: network failures are swallowed and
yield `None`. -/
def get_readme (oracle : Oracle) (owner repo : String) : M (Option String) := do
  emit (Event.ghReadme owner repo)
  pure oracle.readme

/-- Embeds `GitHubService.get_repository_tree` (the branch-candidate retries
are collapsed into one traced call); failures yield `[]`. -/
def get_repository_tree (oracle : Oracle) (owner repo : String) : M (List TreeEntry) := do
  emit (Event.ghTree owner repo)
  pure oracle.tree

/-- Embeds `GitHubService.get_file_content`; failures yield `None`. -/
def get_file_content (oracle : Oracle) (owner repo path : String) : M (Option String) := do
  emit (Event.ghFileContent owner repo path)
  pure (oracle.fileContent path)

/-- Embeds `GitHubService.get_issues`; failures yield `[]`. -/
def get_issues (oracle : Oracle) (owner repo state : String) : M (List Issue) := do
  emit (Event.ghIssues owner repo state)
  pure (oracle.issues state)

/-- The Gemini client configuration of `GeminiService.__init__`: whether the
SDK import succeeded and the `GEMINI_API_KEY` environment value. -/
structure GeminiEnv where
  geminiAvailable : Bool
  apiKey : Option String

/-- Embeds the `using_mock` flag: the real client exists only when the SDK is
importable and an API key is configured. -/
def GeminiEnv.usingMock (env : GeminiEnv) : Bool :=
  !(env.geminiAvailable && env.apiKey.isSome)

/-- Embeds `GeminiService._mock_response`, dispatching on the marker
substring of each prompt template; the returned text is represented by its
`json.loads` outcome (`none` for the non-JSON free-text responses). -/
def mock_response : PromptKind → Option Json
  | PromptKind.overview => none
  | PromptKind.techStack => some (Json.arr
      [Json.obj
        [("name", Json.str "Python"),
         ("category", Json.str "Programming Language"),
         ("reasoning", Json.str "Primary language based on file extensions and project structure")],
       Json.obj
        [("name", Json.str "FastAPI"),
         ("category", Json.str "Web Framework"),
         ("reasoning", Json.str "Detected from configuration files and import statements")]])
  | PromptKind.architecture => some (Json.obj
      [("overview", Json.str "The architecture follows a layered pattern with clear separation between API, business logic, and data layers."),
       ("components", Json.arr
         [Json.obj [("name", Json.str "API Layer"), ("description", Json.str "Handles HTTP requests and responses")],
          Json.obj [("name", Json.str "Business Logic"), ("description", Json.str "Core application logic and processing")],
          Json.obj [("name", Json.str "Data Layer"), ("description", Json.str "Database interactions and persistence")]]),
       ("data_flow", Json.str "Requests flow from API layer through business logic to data layer and back.")])
  | PromptKind.issues => some (Json.obj
      [("recurring_problems", Json.str "Common issues include dependency management and configuration challenges."),
       ("risky_areas", Json.str "Areas requiring careful attention include authentication and data validation."),
       ("active_features", Json.str "Recent development focuses on performance optimization and user experience improvements.")])
  | PromptKind.guide => some (Json.obj
      [("getting_started", Json.str "1. Clone the repository\n2. Install dependencies\n3. Set up configuration files\n4. Run tests to verify setup"),
       ("safe_areas", Json.str "Documentation, test files, and utility functions are safe areas for new contributors."),
       ("caution_areas", Json.str "Core business logic and database schemas require careful review before modification."),
       ("feature_extension_guide", Json.str "Follow the existing patterns in the codebase. Add new features in dedicated modules and include comprehensive tests.")])

/-- Embeds `GeminiService.generate_content`: with a configured client the
transport is called once (traced as `Event.llmCall`) and a transport
exception falls back to the mock text; without a client the mock text is
returned directly, with no outbound call. -/
def generate_content (env : GeminiEnv) (oracle : Oracle) (kind : PromptKind) :
    M (Option Json) :=
  if env.usingMock then
    pure (mock_response kind)
  else do
    emit (Event.llmCall kind)
    match oracle.llm kind with
    | LlmResult.ok parsed => pure parsed
    | LlmResult.err _ => pure (mock_response kind)

/-- The context dict assembled by `analyze_repository` (fields that feed only
prompt text are kept as data; `all_files` aliases `files`). -/
structure Context where
  repo_name : String
  primary_language : Option String
  readme : Option String
  files : List FileInfo
  config_files : List FileInfo
  source_files : List FileInfo
  file_contents : String
  open_issues : List Issue
  closed_issues : List Issue

/-- Embeds `GeminiService.analyze_project_overview`: one free-text call whose
result is returned verbatim (the pipeline never uses it). -/
def analyze_project_overview (env : GeminiEnv) (oracle : Oracle) (_ctx : Context) :
    M (Option Json) :=
  generate_content env oracle PromptKind.overview

/-- The deterministic tech-stack fallback of `analyze_tech_stack`.  The
context dict always carries the `primary_language` key, so Python
`context.get('primary_language', 'Unknown')` returns the stored value (the
metadata language, possibly `None`); the `'Unknown'` default would fire only
for a context without the key, which the pipeline never builds. -/
def techStackFallback (lang : Option String) : Json :=
  Json.obj
    [("name", match lang with | some s => Json.str s | none => Json.null),
     ("category", Json.str "Programming Language"),
     ("reasoning", Json.str "Primary language of the repository")]

/-- Embeds `GeminiService.analyze_tech_stack`: one structured call; a
response that `json.loads` parses to a list is returned as-is (whatever its
items are), anything else — parse failure or a non-list value — yields the
single-item fallback. -/
def analyze_tech_stack (env : GeminiEnv) (oracle : Oracle) (ctx : Context) :
    M (List Json) := do
  let response ← generate_content env oracle PromptKind.techStack
  match response with
  | some (Json.arr items) => pure items
  | _ => pure [techStackFallback ctx.primary_language]

/-- The deterministic architecture fallback of `analyze_architecture`. -/
def archFallback : List (String × Json) :=
  [("overview", Json.str "Modular architecture with separated concerns."),
   ("components", Json.arr [Json.obj [("name", Json.str "Core"), ("description", Json.str "Main application logic")]]),
   ("data_flow", Json.str "Standard data flow patterns.")]

/-- Embeds `GeminiService.analyze_architecture`: a response parsing to a dict
is returned, anything else yields the fallback dict. -/
def analyze_architecture (env : GeminiEnv) (oracle : Oracle) (_ctx : Context) :
    M (List (String × Json)) := do
  let response ← generate_content env oracle PromptKind.architecture
  match response with
  | some (Json.obj fields) => pure fields
  | _ => pure archFallback

/-- The deterministic issues fallback of `analyze_issues`. -/
def issuesFallback : List (String × Json) :=
  [("recurring_problems", Json.str "No significant patterns identified."),
   ("risky_areas", Json.str "Review areas with frequent changes."),
   ("active_features", Json.str "Check open issues for active development.")]

/-- Embeds `GeminiService.analyze_issues`. -/
def analyze_issues (env : GeminiEnv) (oracle : Oracle) (_ctx : Context) :
    M (List (String × Json)) := do
  let response ← generate_content env oracle PromptKind.issues
  match response with
  | some (Json.obj fields) => pure fields
  | _ => pure issuesFallback

/-- The deterministic contributor-guide fallback of
`generate_contributor_guide`. -/
def guideFallback : List (String × Json) :=
  [("getting_started", Json.str "Clone repository, install dependencies, run tests."),
   ("safe_areas", Json.str "Documentation and test files."),
   ("caution_areas", Json.str "Core business logic."),
   ("feature_extension_guide", Json.str "Follow existing patterns.")]

/-- Embeds `GeminiService.generate_contributor_guide`. -/
def generate_contributor_guide (env : GeminiEnv) (oracle : Oracle) (_ctx : Context) :
    M (List (String × Json)) := do
  let response ← generate_content env oracle PromptKind.guide
  match response with
  | some (Json.obj fields) => pure fields
  | _ => pure guideFallback

/-- Embeds the file-content loop of `analyze_repository` over
`important_files[:10]`: each file costs one content fetch; empty (falsy) or
oversized content is skipped, kept content is truncated to 2000 characters. -/
def fetch_file_contents (oracle : Oracle) (owner repo : String) :
    List FileInfo → M (List (String × String))
  | [] => pure []
  | f :: rest => do
      let content ← get_file_content oracle owner repo f.path
      let tail ← fetch_file_contents oracle owner repo rest
      match content with
      | some c =>
          if 0 < c.length ∧ c.length < 10000 then
            pure ((f.path, c.take 2000) :: tail)
          else
            pure tail
      | none => pure tail

/-- The `TechStack` row built for one (dict) item of the tech-stack list. -/
def techRowFrom (repo_id tech_id : String) (fields : List (String × Json)) :
    TechStackRow :=
  { id := tech_id, repo_id := repo_id,
    name := pyGetD fields "name" (Json.str "Unknown"),
    category := pyGetD fields "category" (Json.str "Other"),
    reasoning := pyGetD fields "reasoning" (Json.str "") }

/-- Embeds the tech-stack storage loop of `analyze_repository`: a fresh uuid
per item, then `tech_item.get(...)` — which raises `AttributeError` on any
item that is not a dict — and `db.add`. -/
def store_tech_items (repo_id : String) : List Json → M Unit
  | [] => pure ()
  | item :: rest => do
      let tech_id ← freshId
      match item with
      | Json.obj fields => do
          modifyDB (fun db =>
            { db with tech_stack := db.tech_stack ++ [techRowFrom repo_id tech_id fields] })
          store_tech_items repo_id rest
      | _ => mRaise (PyErr.attributeError "object has no attribute get")

/-- The table effect of the `ArchitectureSummary` check-then-update-or-insert
of `analyze_repository`: when a row with this `repo_id` exists its fields are
overwritten in place, otherwise the row is inserted. -/
def upsertArchList (l : List ArchitectureSummaryRow) (row : ArchitectureSummaryRow) :
    List ArchitectureSummaryRow :=
  if l.any (fun r => r.repo_id == row.repo_id) then
    l.map (fun r =>
      if r.repo_id == row.repo_id then
        { r with overview := row.overview, components := row.components,
                 data_flow := row.data_flow } else r)
  else l ++ [row]

/-- Embeds the `ArchitectureSummary` check-then-update-or-insert of
`analyze_repository`. -/
def upsert_architecture (row : ArchitectureSummaryRow) : M Unit :=
  modifyDB (fun db =>
    { db with architecture_summary := upsertArchList db.architecture_summary row })

/-- The table effect of the `IssuesInsights` check-then-update-or-insert. -/
def upsertIssuesList (l : List IssuesInsightsRow) (row : IssuesInsightsRow) :
    List IssuesInsightsRow :=
  if l.any (fun r => r.repo_id == row.repo_id) then
    l.map (fun r =>
      if r.repo_id == row.repo_id then
        { r with recurring_problems := row.recurring_problems,
                 risky_areas := row.risky_areas,
                 active_features := row.active_features } else r)
  else l ++ [row]

/-- Embeds the `IssuesInsights` check-then-update-or-insert. -/
def upsert_issues (row : IssuesInsightsRow) : M Unit :=
  modifyDB (fun db =>
    { db with issues_insights := upsertIssuesList db.issues_insights row })

/-- The table effect of the `ContributorGuide` check-then-update-or-insert. -/
def upsertGuideList (l : List ContributorGuideRow) (row : ContributorGuideRow) :
    List ContributorGuideRow :=
  if l.any (fun r => r.repo_id == row.repo_id) then
    l.map (fun r =>
      if r.repo_id == row.repo_id then
        { r with getting_started := row.getting_started,
                 safe_areas := row.safe_areas,
                 caution_areas := row.caution_areas,
                 feature_extension_guide := row.feature_extension_guide } else r)
  else l ++ [row]

/-- Embeds the `ContributorGuide` check-then-update-or-insert. -/
def upsert_guide (row : ContributorGuideRow) : M Unit :=
  modifyDB (fun db =>
    { db with contributor_guide := upsertGuideList db.contributor_guide row })

/-- Embeds the file-information storage loop over `important_files[:30]`:
a fresh uuid and a `RepoFile` insert per item, never a deletion. -/
def store_repo_files (repo_id : String) : List FileInfo → M Unit
  | [] => pure ()
  | f :: rest => do
      let file_id ← freshId
      modifyDB (fun db =>
        { db with repo_files := db.repo_files ++
            [{ id := file_id, repo_id := repo_id, file_path := f.path,
               language := f.language, role := f.role,
               summary := "Priority: " ++ toString f.priority }] })
      store_repo_files repo_id rest

/-- The stored `created_at` value: Python keeps
`datetime.fromisoformat(created_at.replace('Z', '+00:00'))` when the raw
value is truthy and `None` otherwise; the timestamp is modelled by its source
text (a `fromisoformat` failure on malformed text is not modelled — no claim
depends on it). -/
def pyCreatedAt : Option String → Option String
  | some c => if c = "" then none else some (c.replace "Z" "+00:00")
  | none => none

/-- Embeds phase one of the `try` body of `analyze_repository`: metadata
fetch first, then repository insert-or-refresh committed alone, then the
`AnalysisSession(running)` insert committed alone; returns the metadata and
the session id, and records the Python `session` local. -/
def seg_metadata_and_rows (oracle : Oracle) (repo_url owner repo_name : String)
    (existing_repo : Option RepositoryRow) (repo_id : String) :
    M (Metadata × String) := do
  let metadata ← get_repo_metadata oracle owner repo_name
  match existing_repo with
  | none =>
      modifyDB (fun db =>
        { db with repositories := db.repositories ++
            [{ id := repo_id, repo_url := repo_url, owner := owner,
               name := repo_name, primary_language := metadata.language,
               created_at := pyCreatedAt metadata.created_at,
               analyzed_at := pyUtcnow }] })
      commitDB
  | some r => do
      modifyDB (fun db =>
        { db with repositories := db.repositories.map (fun q =>
            if q.id == r.id then
              { q with analyzed_at := pyUtcnow,
                       primary_language := metadata.language } else q) })
      commitDB
  let session_id ← freshId
  modifyDB (fun db =>
    { db with sessions := db.sessions ++
        [{ id := session_id, repo_id := repo_id, status := "in_progress",
           started_at := pyUtcnow, completed_at := none }] })
  commitDB
  mModify (fun s => { s with sessionVar := some session_id })
  pure (metadata, session_id)

/-- Embeds phase two of the `try` body: readme, tree, prioritized subset,
limited file contents, open and closed issues, and the context dict. -/
def seg_gather (oracle : Oracle) (owner repo_name : String) (metadata : Metadata) :
    M Context := do
  let readme ← get_readme oracle owner repo_name
  let tree ← get_repository_tree oracle owner repo_name
  let important_files := oracle.filterImportant tree 30
  let file_contents ← fetch_file_contents oracle owner repo_name (important_files.take 10)
  let open_issues ← get_issues oracle owner repo_name "open"
  let closed_issues ← get_issues oracle owner repo_name "closed"
  pure
    { repo_name := owner ++ "/" ++ repo_name,
      primary_language := metadata.language,
      readme := readme,
      files := important_files,
      config_files := important_files.filter (fun f => f.role == "configuration"),
      source_files := important_files.filter
        (fun f => f.role == "source_code" || f.role == "entry_point"),
      file_contents := jsonDumps (Json.obj
        (file_contents.map (fun kv => (kv.1, Json.str kv.2)))),
      open_issues := open_issues,
      closed_issues := closed_issues }

/-- Embeds phase three of the `try` body: the five Gemini analyses in source
order — overview (result unused), tech stack with its storage loop, then the
architecture, issues and contributor-guide upserts (the `guide_context` dict
feeds prompt text only). -/
def seg_llm_and_store (env : GeminiEnv) (oracle : Oracle) (repo_id : String)
    (ctx : Context) : M Unit := do
  let _overview ← analyze_project_overview env oracle ctx
  let tech_stack_data ← analyze_tech_stack env oracle ctx
  store_tech_items repo_id tech_stack_data
  let arch_data ← analyze_architecture env oracle ctx
  upsert_architecture
    { repo_id := repo_id,
      overview := ensure_string (pyGet arch_data "overview"),
      components := ensure_string (pyGet arch_data "components"),
      data_flow := ensure_string (pyGet arch_data "data_flow") }
  let issues_data ← analyze_issues env oracle ctx
  upsert_issues
    { repo_id := repo_id,
      recurring_problems := ensure_string (pyGetD issues_data "recurring_problems" (Json.str "")),
      risky_areas := ensure_string (pyGetD issues_data "risky_areas" (Json.str "")),
      active_features := ensure_string (pyGetD issues_data "active_features" (Json.str "")) }
  let guide_data ← generate_contributor_guide env oracle ctx
  upsert_guide
    { repo_id := repo_id,
      getting_started := ensure_string (pyGet guide_data "getting_started"),
      safe_areas := ensure_string (pyGet guide_data "safe_areas"),
      caution_areas := ensure_string (pyGet guide_data "caution_areas"),
      feature_extension_guide := ensure_string (pyGet guide_data "feature_extension_guide") }

/-- Embeds phase four of the `try` body: the file-information inserts over
`important_files[:30]`, the flip of the session to `completed` with its
completion time, and the single final commit that publishes all of it. -/
def seg_finish (repo_id session_id : String) (important_files : List FileInfo) :
    M String := do
  store_repo_files repo_id (important_files.take 30)
  modifyDB (fun db =>
    { db with sessions := db.sessions.map (fun r =>
        if r.id == session_id then
          { r with status := "completed", completed_at := some pyUtcnow } else r) })
  commitDB
  pure repo_id

/-- The whole `try` body of `analyze_repository`. -/
def analysis_body (env : GeminiEnv) (oracle : Oracle)
    (repo_url owner repo_name : String) (existing_repo : Option RepositoryRow)
    (repo_id : String) : M String := do
  let ms ← seg_metadata_and_rows oracle repo_url owner repo_name existing_repo repo_id
  let ctx ← seg_gather oracle owner repo_name ms.1
  seg_llm_and_store env oracle repo_id ctx
  seg_finish repo_id ms.2 ctx.files

/-- Embeds the `except` block of `analyze_repository`, including its
indentation slip: `session.status = 'failed'` is guarded by
`if session is not None`, but the following `session.completed_at = ...` is
not, so with no session the handler raises `AttributeError` itself and never
commits; otherwise the pending changes are committed and a wrapping
`ValueError` is re-raised. -/
def analysis_failure_handler (e : PyErr) : M String := do
  let st ← mGet
  match st.sessionVar with
  | some sid =>
      modifyDB (fun db =>
        { db with sessions := db.sessions.map (fun r =>
            if r.id == sid then { r with status := "failed" } else r) })
  | none => pure ()
  match st.sessionVar with
  | some sid =>
      modifyDB (fun db =>
        { db with sessions := db.sessions.map (fun r =>
            if r.id == sid then { r with completed_at := some pyUtcnow } else r) })
  | none => mRaise (PyErr.attributeError "NoneType object has no attribute completed_at")
  commitDB
  mRaise (PyErr.valueError ("Analysis failed: " ++ e.message))

/-- Embeds `AnalysisService.analyze_repository` (called with the default
`repo_id=None`): parse and validate the URL, look up an existing repository
by URL, choose the repository id, set the `session` local to `None`, then
run the `try` body under the `except` handler. -/
def analyze_repository (env : GeminiEnv) (oracle : Oracle) (repo_url : String) :
    M String := do
  match parse_repo_url repo_url with
  | Except.error e => mRaise (PyErr.valueError ("Invalid repository URL: " ++ e))
  | Except.ok (owner, repo_name) => do
      let st ← mGet
      let existing_repo := st.db.repositories.find? (fun r => r.repo_url == repo_url)
      let repo_id ← match existing_repo with
        | some r => pure r.id
        | none => freshId
      mModify (fun s => { s with sessionVar := none })
      mTryCatch
        (analysis_body env oracle repo_url owner repo_name existing_repo repo_id)
        analysis_failure_handler

/-- A fresh run context over a given store and uuid source. -/
def initState (db : DBState) (counter : Nat) : RunState :=
  { db := db, committed := [], events := [], uuidCounter := counter,
    sessionVar := none }

/-- Run one detached analysis over a store, as the background task does with
its own session scope. -/
def runAnalysis (env : GeminiEnv) (oracle : Oracle) (repo_url : String)
    (db : DBState) (counter : Nat) : Except PyErr String × RunState :=
  analyze_repository env oracle repo_url (initState db counter)

/-- The parse outcome that `generate_content` hands to its caller: the
transport response when a client is configured and the transport succeeds,
the mock text otherwise. -/
def effectiveRaw (env : GeminiEnv) (oracle : Oracle) (kind : PromptKind) :
    Option Json :=
  if env.usingMock then mock_response kind
  else match oracle.llm kind with
    | LlmResult.ok parsed => parsed
    | LlmResult.err _ => mock_response kind

/-- The transport events of one `generate_content` call. -/
def llmEventsOf (env : GeminiEnv) (kind : PromptKind) : List Event :=
  if env.usingMock then [] else [Event.llmCall kind]

/-- The tech-stack list the pipeline stores, as a function of the stubs. -/
def techItemsOf (env : GeminiEnv) (oracle : Oracle) (lang : Option String) :
    List Json :=
  match effectiveRaw env oracle PromptKind.techStack with
  | some (Json.arr items) => items
  | _ => [techStackFallback lang]

/-- The architecture dict the pipeline stores. -/
def archDataOf (env : GeminiEnv) (oracle : Oracle) : List (String × Json) :=
  match effectiveRaw env oracle PromptKind.architecture with
  | some (Json.obj fields) => fields
  | _ => archFallback

/-- The issues dict the pipeline stores. -/
def issuesDataOf (env : GeminiEnv) (oracle : Oracle) : List (String × Json) :=
  match effectiveRaw env oracle PromptKind.issues with
  | some (Json.obj fields) => fields
  | _ => issuesFallback

/-- The contributor-guide dict the pipeline stores. -/
def guideDataOf (env : GeminiEnv) (oracle : Oracle) : List (String × Json) :=
  match effectiveRaw env oracle PromptKind.guide with
  | some (Json.obj fields) => fields
  | _ => guideFallback

/-- The kept file contents, as a function of the stubs. -/
def contentsOf (oracle : Oracle) : List FileInfo → List (String × String)
  | [] => []
  | f :: rest =>
      match oracle.fileContent f.path with
      | some c =>
          if 0 < c.length ∧ c.length < 10000 then
            (f.path, c.take 2000) :: contentsOf oracle rest
          else contentsOf oracle rest
      | none => contentsOf oracle rest

/-- The trace of the file-content loop: one fetch per listed file. -/
def contentEvents (owner repo : String) (fs : List FileInfo) : List Event :=
  fs.map (fun f => Event.ghFileContent owner repo f.path)

/-- The rows the tech-stack loop inserts for a list of dict items, with the
uuid counter it starts from. -/
def techRowsFrom (repo_id : String) (counter : Nat) : List Json → List TechStackRow
  | [] => []
  | Json.obj fields :: rest =>
      techRowFrom repo_id (toString counter) fields :: techRowsFrom repo_id (counter + 1) rest
  | _ :: rest => techRowsFrom repo_id (counter + 1) rest

/-- The rows the file-information loop inserts, with the uuid counter it
starts from. -/
def repoFileRowsFrom (repo_id : String) (counter : Nat) :
    List FileInfo → List RepoFileRow
  | [] => []
  | f :: rest =>
      { id := toString counter, repo_id := repo_id, file_path := f.path,
        language := f.language, role := f.role,
        summary := "Priority: " ++ toString f.priority } ::
      repoFileRowsFrom repo_id (counter + 1) rest

/-- The scenario URL of the spec's walkthrough. -/
def acmeUrl : String := "https://github.com/acme/widgets"

/-- Stub metadata of a healthy Python repository. -/
def acmeMetadata : Metadata := { language := some "Python", created_at := none }

/-- Stub collaborator responses for a small healthy repository; the Gemini
transport itself is down (irrelevant in mock mode, and recovered into mock
text when a client is configured). -/
def acmeOracle : Oracle :=
  { metadata := Except.ok acmeMetadata,
    readme := some "Example readme",
    tree := [],
    filterImportant := fun _ _ => [],
    fileContent := fun _ => none,
    issues := fun _ => [],
    llm := fun _ => LlmResult.err "transport unavailable" }

/-- Unconfigured Gemini service: no API key, so `using_mock` holds. -/
def mockEnv : GeminiEnv := { geminiAvailable := true, apiKey := none }

/-- Configured Gemini service: SDK importable and API key present. -/
def liveEnv : GeminiEnv := { geminiAvailable := true, apiKey := some "key" }

/-- Transport stub answering every prompt with well-formed structured text
(the mock texts round-tripped through the transport). -/
def liveOracle : Oracle :=
  { acmeOracle with llm := fun k => LlmResult.ok (mock_response k) }

/-- Transport stub whose tech-stack response is valid JSON of invalid shape:
a list whose only item is a number, not an object. -/
def badTechOracle : Oracle :=
  { acmeOracle with llm := fun k =>
      match k with
      | PromptKind.techStack => LlmResult.ok (some (Json.arr [Json.num 1]))
      | _ => LlmResult.ok (mock_response k) }

/-- Transport stub whose tech-stack response is a JSON list with one valid
object followed by a number, so the storage loop fails halfway. -/
def partialTechOracle : Oracle :=
  { acmeOracle with llm := fun k =>
      match k with
      | PromptKind.techStack => LlmResult.ok (some (Json.arr
          [Json.obj [("name", Json.str "Python"),
                     ("category", Json.str "Programming Language"),
                     ("reasoning", Json.str "stub")],
           Json.num 1]))
      | _ => LlmResult.ok (mock_response k) }

/-- Transport stub whose tech-stack response is unparsable text
(`json.loads` fails). -/
def unparsableTechOracle : Oracle :=
  { acmeOracle with llm := fun k =>
      match k with
      | PromptKind.techStack => LlmResult.ok none
      | _ => LlmResult.ok (mock_response k) }

/-- Transport stub whose responses are valid JSON of the wrong shape: a dict
where a list is expected (tech stack) and a list where a dict is expected
(all other prompts). -/
def dictTechOracle : Oracle :=
  { acmeOracle with llm := fun k =>
      match k with
      | PromptKind.techStack => LlmResult.ok (some (Json.obj [("name", Json.str "X")]))
      | _ => LlmResult.ok (some (Json.arr [])) }

/-- Stubs failing the metadata fetch, as for a nonexistent repository. -/
def notFoundOracle : Oracle :=
  { acmeOracle with metadata := Except.error "Repository not found: acme/widgets" }

/-- Stubs for a repository whose primary language is Rust. -/
def rustOracle : Oracle :=
  { acmeOracle with metadata := Except.ok { language := some "Rust", created_at := none } }

/-- A context dict for a Rust repository, for exercising the tech-stack
adapter directly. -/
def rustCtx : Context :=
  { repo_name := "acme/widgets", primary_language := some "Rust",
    readme := none, files := [], config_files := [], source_files := [],
    file_contents := "", open_issues := [], closed_issues := [] }

/-- The fixed two-entry tech stack of the mock text (independent of the
analyzed repository). -/
def mockTechStackItems : List Json :=
  [Json.obj
    [("name", Json.str "Python"),
     ("category", Json.str "Programming Language"),
     ("reasoning", Json.str "Primary language based on file extensions and project structure")],
   Json.obj
    [("name", Json.str "FastAPI"),
     ("category", Json.str "Web Framework"),
     ("reasoning", Json.str "Detected from configuration files and import statements")]]

/-- First and second runs of the same URL against the same store (mock mode,
healthy stubs); the second run starts from the first run's store and uuid
source. -/
def runOnce : Except PyErr String × RunState :=
  runAnalysis mockEnv acmeOracle acmeUrl emptyDB 0

/-- See `runOnce`. -/
def runTwice : Except PyErr String × RunState :=
  runAnalysis mockEnv acmeOracle acmeUrl runOnce.2.db runOnce.2.uuidCounter

/-- The class names defined by `services/analysis_service.py` (line 21). -/
def analysisServiceClassNames : List String := ["AnalysisService"]

/-- The method names defined on `AnalysisService`
(`services/analysis_service.py` lines 24, 29, 258). -/
def analysisServiceMethodNames : List String :=
  ["__init__", "analyze_repository", "answer_question"]

/-- The name `routes/api.py` line 13 imports from
`services.analysis_service`. -/
def apiImportedServiceClass : String := "AnalysisServiceFinal"

/-- The service methods each endpoint of `routes/api.py` invokes on the
imported service object (lines 44, 56, 99, 122, 150, 171). -/
def apiServiceCallsByEndpoint : List (String × List String) :=
  [("analyze_repo", ["start_analysis", "execute_analysis"]),
   ("get_analysis_status", ["get_status"]),
   ("get_analysis", ["get_analysis"]),
   ("ask_question", ["get_status", "answer_question"])]

/-- Evaluation rule of the monad bind of `M`. -/
theorem M_bind_eval {α β : Type} (x : M α) (f : α → M β) (s : RunState) :
    (x >>= f) s = match x s with
      | (Except.ok a, s2) => f a s2
      | (Except.error e, s2) => (Except.error e, s2) := rfl

/-- Evaluation rule of the monad unit of `M`. -/
theorem M_pure_eval {α : Type} (a : α) (s : RunState) :
    (pure a : M α) s = (Except.ok a, s) := rfl

/-- `generate_content` never raises: it returns the effective parse outcome
and traces at most one transport call. -/
theorem generate_content_eval (env : GeminiEnv) (oracle : Oracle)
    (kind : PromptKind) (s : RunState) :
    generate_content env oracle kind s =
      (Except.ok (effectiveRaw env oracle kind),
       { s with events := s.events ++ llmEventsOf env kind }) := by
  unfold generate_content effectiveRaw llmEventsOf
  cases hm : env.usingMock with
  | true => simp [M_pure_eval]
  | false =>
      cases hr : oracle.llm kind <;>
      simp [M_bind_eval, M_pure_eval, emit, mModify]

/-- `analyze_tech_stack` never raises and returns `techItemsOf`. -/
theorem analyze_tech_stack_eval (env : GeminiEnv) (oracle : Oracle)
    (ctx : Context) (s : RunState) :
    analyze_tech_stack env oracle ctx s =
      (Except.ok (techItemsOf env oracle ctx.primary_language),
       { s with events := s.events ++ llmEventsOf env PromptKind.techStack }) := by
  unfold analyze_tech_stack techItemsOf
  rw [M_bind_eval, generate_content_eval]
  cases hr : effectiveRaw env oracle PromptKind.techStack with
  | none => simp [M_pure_eval]
  | some j => cases j <;> simp [M_pure_eval]

/-- `analyze_architecture` never raises and returns `archDataOf`. -/
theorem analyze_architecture_eval (env : GeminiEnv) (oracle : Oracle)
    (ctx : Context) (s : RunState) :
    analyze_architecture env oracle ctx s =
      (Except.ok (archDataOf env oracle),
       { s with events := s.events ++ llmEventsOf env PromptKind.architecture }) := by
  unfold analyze_architecture archDataOf
  rw [M_bind_eval, generate_content_eval]
  cases hr : effectiveRaw env oracle PromptKind.architecture with
  | none => simp [M_pure_eval]
  | some j => cases j <;> simp [M_pure_eval]

/-- `analyze_issues` never raises and returns `issuesDataOf`. -/
theorem analyze_issues_eval (env : GeminiEnv) (oracle : Oracle)
    (ctx : Context) (s : RunState) :
    analyze_issues env oracle ctx s =
      (Except.ok (issuesDataOf env oracle),
       { s with events := s.events ++ llmEventsOf env PromptKind.issues }) := by
  unfold analyze_issues issuesDataOf
  rw [M_bind_eval, generate_content_eval]
  cases hr : effectiveRaw env oracle PromptKind.issues with
  | none => simp [M_pure_eval]
  | some j => cases j <;> simp [M_pure_eval]

/-- `generate_contributor_guide` never raises and returns `guideDataOf`. -/
theorem generate_contributor_guide_eval (env : GeminiEnv) (oracle : Oracle)
    (ctx : Context) (s : RunState) :
    generate_contributor_guide env oracle ctx s =
      (Except.ok (guideDataOf env oracle),
       { s with events := s.events ++ llmEventsOf env PromptKind.guide }) := by
  unfold generate_contributor_guide guideDataOf
  rw [M_bind_eval, generate_content_eval]
  cases hr : effectiveRaw env oracle PromptKind.guide with
  | none => simp [M_pure_eval]
  | some j => cases j <;> simp [M_pure_eval]

/-- The file-content loop never raises, touches no table, and traces exactly
one fetch per file. -/
theorem fetch_file_contents_eval (oracle : Oracle) (owner repo : String)
    (fs : List FileInfo) (s : RunState) :
    fetch_file_contents oracle owner repo fs s =
      (Except.ok (contentsOf oracle fs),
       { s with events := s.events ++ contentEvents owner repo fs }) := by
  induction fs generalizing s with
  | nil => simp [fetch_file_contents, contentsOf, contentEvents, M_pure_eval]
  | cons f rest ih =>
      cases hc : oracle.fileContent f.path with
      | none =>
          simp [fetch_file_contents, get_file_content, emit, mModify,
                M_bind_eval, M_pure_eval, ih, hc, contentsOf, contentEvents]
      | some c =>
          by_cases hlen : 0 < c.length ∧ c.length < 10000 <;>
          simp [fetch_file_contents, get_file_content, emit, mModify,
                M_bind_eval, M_pure_eval, ih, hc, hlen, contentsOf, contentEvents]

/-- When every item is a dict, the tech-stack loop inserts one row per item
and never raises. -/
theorem store_tech_items_eval (repo_id : String) (items : List Json)
    (h : items.all Json.isObj = true) (s : RunState) :
    store_tech_items repo_id items s =
      (Except.ok (),
       { s with
           db := { s.db with
             tech_stack := s.db.tech_stack ++ techRowsFrom repo_id s.uuidCounter items },
           uuidCounter := s.uuidCounter + items.length }) := by
  induction items generalizing s with
  | nil => simp [store_tech_items, techRowsFrom, M_pure_eval]
  | cons item rest ih =>
      rw [List.all_cons, Bool.and_eq_true] at h
      cases item with
      | obj fields =>
          simp [store_tech_items, freshId, modifyDB, mModify,
                M_bind_eval, M_pure_eval, ih h.2, techRowsFrom,
                List.append_assoc, List.singleton_append,
                Nat.add_comm, Nat.add_assoc, Nat.add_left_comm]
      | null => simp [Json.isObj] at h
      | bool b => simp [Json.isObj] at h
      | num n => simp [Json.isObj] at h
      | str t => simp [Json.isObj] at h
      | arr xs => simp [Json.isObj] at h

/-- When the item list has a first non-dict element, the loop inserts the
rows of the preceding dict items, burns one more uuid, and raises
`AttributeError` from `tech_item.get`. -/
theorem store_tech_items_fail (repo_id : String) (pre : List Json) (bad : Json)
    (rest : List Json) (hpre : pre.all Json.isObj = true)
    (hbad : bad.isObj = false) (s : RunState) :
    store_tech_items repo_id (pre ++ bad :: rest) s =
      (Except.error (PyErr.attributeError "object has no attribute get"),
       { s with
           db := { s.db with
             tech_stack := s.db.tech_stack ++ techRowsFrom repo_id s.uuidCounter pre },
           uuidCounter := s.uuidCounter + pre.length + 1 }) := by
  induction pre generalizing s with
  | nil =>
      cases bad with
      | obj fields => simp [Json.isObj] at hbad
      | null => simp [store_tech_items, freshId, mRaise, M_bind_eval, techRowsFrom]
      | bool b => simp [store_tech_items, freshId, mRaise, M_bind_eval, techRowsFrom]
      | num n => simp [store_tech_items, freshId, mRaise, M_bind_eval, techRowsFrom]
      | str t => simp [store_tech_items, freshId, mRaise, M_bind_eval, techRowsFrom]
      | arr xs => simp [store_tech_items, freshId, mRaise, M_bind_eval, techRowsFrom]
  | cons item pre2 ih =>
      rw [List.all_cons, Bool.and_eq_true] at hpre
      cases item with
      | obj fields =>
          simp [store_tech_items, freshId, modifyDB, mModify,
                M_bind_eval, M_pure_eval, ih hpre.2, techRowsFrom,
                List.append_assoc, List.singleton_append,
                Nat.add_comm, Nat.add_assoc, Nat.add_left_comm]
      | null => simp [Json.isObj] at hpre
      | bool b => simp [Json.isObj] at hpre
      | num n => simp [Json.isObj] at hpre
      | str t => simp [Json.isObj] at hpre
      | arr xs => simp [Json.isObj] at hpre

/-- The file-information loop never raises and only appends rows. -/
theorem store_repo_files_eval (repo_id : String) (fs : List FileInfo)
    (s : RunState) :
    store_repo_files repo_id fs s =
      (Except.ok (),
       { s with
           db := { s.db with
             repo_files := s.db.repo_files ++ repoFileRowsFrom repo_id s.uuidCounter fs },
           uuidCounter := s.uuidCounter + fs.length }) := by
  induction fs generalizing s with
  | nil => simp [store_repo_files, repoFileRowsFrom, M_pure_eval]
  | cons f rest ih =>
      simp [store_repo_files, freshId, modifyDB, mModify,
            M_bind_eval, M_pure_eval, ih, repoFileRowsFrom,
            List.append_assoc, List.singleton_append,
            Nat.add_comm, Nat.add_assoc, Nat.add_left_comm]

/-- C9: the API route module imports `AnalysisServiceFinal` — a name the
analysis-service module does not define (it defines only `AnalysisService`)
— and every status-polled endpoint calls at least one of `start_analysis`,
`execute_analysis`, `get_status`, `get_analysis`, none of which exists on
`AnalysisService` (whose methods are `__init__`, `analyze_repository`,
`answer_question`). -/
theorem C9_routes_reference_missing_service_api :
    apiImportedServiceClass ∉ analysisServiceClassNames
    ∧ ∀ ep ∈ apiServiceCallsByEndpoint,
        ∃ meth ∈ ep.2, meth ∉ analysisServiceMethodNames := by
  decide

/-- C10: `parse_repo_url` deletes every `.git` occurrence before matching,
so `https://www.github.com/owner/repo` is first rewritten to
`https://wwwhub.com/owner/repo` (the `.git` inside `.github.com` is eaten)
and then rejected as invalid, even though the regex itself accepts the
original URL; and a `.git` inside an owner name is silently removed from the
extracted name. -/
theorem C10_dot_git_stripping_breaks_and_mangles_urls :
    parse_repo_url "https://www.github.com/owner/repo" =
      Except.error "Invalid GitHub repository URL: https://wwwhub.com/owner/repo"
    ∧ String.mk (removeDotGit (pyRstripSlash "https://www.github.com/owner/repo").data) =
        "https://wwwhub.com/owner/repo"
    ∧ reSearchGithub "https://www.github.com/owner/repo".data = some ("owner", "repo")
    ∧ parse_repo_url "https://github.com/my.gitowner/repo" = Except.ok ("myowner", "repo") := by
  exact ⟨rfl, rfl, rfl, rfl⟩

/-- C1: the code's own banners (`main.py`, the health endpoint) and the spec
promise exactly one structured-generation call per completed job, but a run
of `analyze_repository` that reaches `completed` with a configured client
performs five LLM transport calls, four of them structured JSON-expecting
calls — not one. -/
theorem C1_completed_job_makes_five_inference_calls :
    (runAnalysis liveEnv liveOracle acmeUrl emptyDB 0).1 = Except.ok "0"
    ∧ ((runAnalysis liveEnv liveOracle acmeUrl emptyDB 0).2.db.sessions.map
        AnalysisSessionRow.status) = ["completed"]
    ∧ countLlm (runAnalysis liveEnv liveOracle acmeUrl emptyDB 0).2.events = 5
    ∧ countStructuredLlm (runAnalysis liveEnv liveOracle acmeUrl emptyDB 0).2.events = 4 := by
  exact ⟨rfl, rfl, rfl, rfl⟩

/-- C2: submission is claimed to create the Repository and the running Job
and return before any external network I/O; in the implemented path the very
first observable action is already the GitHub metadata request, and the
first commit publishing any row happens only after it. -/
theorem C2_network_call_precedes_all_store_writes :
    (runAnalysis mockEnv acmeOracle acmeUrl emptyDB 0).2.events.take 2 =
      [Event.ghMetadata "acme" "widgets", Event.commitEvt]
    ∧ (runAnalysis mockEnv acmeOracle acmeUrl emptyDB 0).2.events.head? =
        some (Event.ghMetadata "acme" "widgets") := by
  exact ⟨rfl, rfl⟩

/-- C8: when the metadata fetch raises before the `AnalysisSession` row is
created, the `except` block first skips the guarded status assignment (the
`session` local is still `None`) and then dereferences it unconditionally in
`session.completed_at = ...`, raising a secondary `AttributeError`; the
failure commit is never reached, so no commit happens at all, the store is
untouched, and no `failed` status is recorded for the attempt. -/
theorem C8_pre_session_failure_crashes_handler
    (env : GeminiEnv) (oracle : Oracle) (url : String) (db : DBState) (counter : Nat)
    (o r : String) (hparse : parse_repo_url url = Except.ok (o, r))
    (msg : String) (hmeta : oracle.metadata = Except.error msg) :
    (runAnalysis env oracle url db counter).1 =
      Except.error (PyErr.attributeError "NoneType object has no attribute completed_at")
    ∧ (runAnalysis env oracle url db counter).2.committed = []
    ∧ (runAnalysis env oracle url db counter).2.db = db
    ∧ (runAnalysis env oracle url db counter).2.events = [Event.ghMetadata o r] := by
  cases hf : db.repositories.find? (fun row => row.repo_url == url) with
  | none =>
      refine ⟨?_, ?_, ?_, ?_⟩ <;>
      simp [runAnalysis, analyze_repository, initState, hparse, hf, hmeta,
            M_bind_eval, M_pure_eval, mGet, mModify, mRaise, mTryCatch,
            analysis_body, seg_metadata_and_rows, get_repo_metadata, emit,
            freshId, analysis_failure_handler, modifyDB, commitDB]
  | some r0 =>
      refine ⟨?_, ?_, ?_, ?_⟩ <;>
      simp [runAnalysis, analyze_repository, initState, hparse, hf, hmeta,
            M_bind_eval, M_pure_eval, mGet, mModify, mRaise, mTryCatch,
            analysis_body, seg_metadata_and_rows, get_repo_metadata, emit,
            freshId, analysis_failure_handler, modifyDB, commitDB]

/-- Witness for `C8_pre_session_failure_crashes_handler` at a concrete
not-found repository. -/
theorem C8_pre_session_failure_witness :
    parse_repo_url acmeUrl = Except.ok ("acme", "widgets")
    ∧ notFoundOracle.metadata = Except.error "Repository not found: acme/widgets"
    ∧ (runAnalysis mockEnv notFoundOracle acmeUrl emptyDB 0).1 =
        Except.error (PyErr.attributeError "NoneType object has no attribute completed_at")
    ∧ (runAnalysis mockEnv notFoundOracle acmeUrl emptyDB 0).2.committed = []
    ∧ (runAnalysis mockEnv notFoundOracle acmeUrl emptyDB 0).2.db = emptyDB := by
  have h := C8_pre_session_failure_crashes_handler mockEnv notFoundOracle acmeUrl
    emptyDB 0 "acme" "widgets" rfl "Repository not found: acme/widgets" rfl
  exact ⟨rfl, rfl, h.1, h.2.1, h.2.2.1⟩

/-- C3: counterexample — in a run whose tech-stack response is a JSON list
with one valid object followed by a number, the storage loop fails halfway
and the failure commit publishes a store with one freshly inserted
tech-stack row but none of the other artifact tables and a `failed` session:
a committed state between pre-job and post-completion that carries partially
written artifact state. -/
theorem C3_counterexample_failure_commit_exposes_partial_artifact :
    ((runAnalysis liveEnv partialTechOracle acmeUrl emptyDB 0).2.committed.map
      (fun d => (d.tech_stack.length, d.architecture_summary.length,
                 d.issues_insights.length, d.contributor_guide.length,
                 d.repo_files.length, d.sessions.map AnalysisSessionRow.status))) =
    [(0, 0, 0, 0, 0, []),
     (0, 0, 0, 0, 0, ["in_progress"]),
     (1, 0, 0, 0, 0, ["failed"])] := by
  exact rfl

/-- C4: counterexample — an exception inside detached execution (a
shape-invalid tech-stack list) is caught, but the handler then RE-RAISES a
wrapping `ValueError`, so the exception does propagate to the caller instead
of being swallowed. -/
theorem C4_counterexample_exception_propagates_to_caller :
    (runAnalysis liveEnv badTechOracle acmeUrl emptyDB 0).1 =
      Except.error (PyErr.valueError "Analysis failed: object has no attribute get") := by
  exact rfl

/-- C5: counterexample — structured output that is valid JSON of invalid
shape (a list whose item is a number) is returned as-is by the adapter, the
storage loop raises on `tech_item.get`, and the job ends `failed`: malformed
inference output alone does fail the job. -/
theorem C5_counterexample_shape_invalid_output_fails_job :
    ((runAnalysis liveEnv badTechOracle acmeUrl emptyDB 0).2.db.sessions.map
      AnalysisSessionRow.status) = ["failed"]
    ∧ (runAnalysis liveEnv badTechOracle acmeUrl emptyDB 0).2.db.tech_stack = [] := by
  exact ⟨rfl, rfl⟩

/-- C6: counterexample — with the generative component unconfigured and a
repository whose primary language is Rust, the stored tech stack is the
mock's fixed two-entry list (Python, FastAPI), not a sole entry naming the
repository's primary language. -/
theorem C6_counterexample_unconfigured_mock_ignores_primary_language :
    ((runAnalysis mockEnv rustOracle acmeUrl emptyDB 0).2.db.tech_stack.map
      (fun row => jsonStr? row.name)) = [some "Python", some "FastAPI"] := by
  exact rfl

/-- C7: counterexample — two completed analyses of the same URL leave four
tech-stack rows (two per run; the second run deletes nothing), not a single
overwritten artifact projection. -/
theorem C7_counterexample_tech_rows_accumulate_across_runs :
    runOnce.1 = Except.ok "0"
    ∧ runTwice.1 = Except.ok "0"
    ∧ runOnce.2.db.tech_stack.length = 2
    ∧ runTwice.2.db.tech_stack.length = 4
    ∧ runTwice.2.db.architecture_summary.length = 1
    ∧ runTwice.2.db.sessions.length = 2 := by
  exact ⟨rfl, rfl, rfl, rfl, rfl, rfl⟩

/-- The check-then-update-or-insert on `architecture_summary` leaves exactly
one matching row when one existed and inserts one otherwise. -/
theorem upsertArchList_countP (l : List ArchitectureSummaryRow) (row : ArchitectureSummaryRow) :
    (upsertArchList l row).countP (fun x => x.repo_id == row.repo_id) =
      max 1 (l.countP (fun x => x.repo_id == row.repo_id)) := by
  unfold upsertArchList
  by_cases h : l.any (fun r => r.repo_id == row.repo_id)
  · rw [if_pos h, List.countP_map]
    have hcong : l.countP ((fun x => x.repo_id == row.repo_id) ∘ (fun r =>
        if r.repo_id == row.repo_id then
          { r with overview := row.overview, components := row.components,
                   data_flow := row.data_flow } else r)) =
        l.countP (fun x => x.repo_id == row.repo_id) := by
      refine List.countP_congr ?_
      intro x _
      by_cases hp : x.repo_id = row.repo_id <;> simp [hp]
    rw [hcong]
    have hpos : 0 < l.countP (fun x => x.repo_id == row.repo_id) := by
      rw [List.countP_pos_iff]
      exact List.any_eq_true.mp h
    omega
  · rw [if_neg h, List.countP_append]
    have h0 : l.countP (fun x => x.repo_id == row.repo_id) = 0 := by
      rw [List.countP_eq_zero]
      intro a ha hpa
      exact h (List.any_eq_true.mpr ⟨a, ha, hpa⟩)
    simp [h0, List.countP_cons]

/-- As `upsertArchList_countP`, for `issues_insights`. -/
theorem upsertIssuesList_countP (l : List IssuesInsightsRow) (row : IssuesInsightsRow) :
    (upsertIssuesList l row).countP (fun x => x.repo_id == row.repo_id) =
      max 1 (l.countP (fun x => x.repo_id == row.repo_id)) := by
  unfold upsertIssuesList
  by_cases h : l.any (fun r => r.repo_id == row.repo_id)
  · rw [if_pos h, List.countP_map]
    have hcong : l.countP ((fun x => x.repo_id == row.repo_id) ∘ (fun r =>
        if r.repo_id == row.repo_id then
          { r with recurring_problems := row.recurring_problems,
                   risky_areas := row.risky_areas,
                   active_features := row.active_features } else r)) =
        l.countP (fun x => x.repo_id == row.repo_id) := by
      refine List.countP_congr ?_
      intro x _
      by_cases hp : x.repo_id = row.repo_id <;> simp [hp]
    rw [hcong]
    have hpos : 0 < l.countP (fun x => x.repo_id == row.repo_id) := by
      rw [List.countP_pos_iff]
      exact List.any_eq_true.mp h
    omega
  · rw [if_neg h, List.countP_append]
    have h0 : l.countP (fun x => x.repo_id == row.repo_id) = 0 := by
      rw [List.countP_eq_zero]
      intro a ha hpa
      exact h (List.any_eq_true.mpr ⟨a, ha, hpa⟩)
    simp [h0, List.countP_cons]

/-- As `upsertArchList_countP`, for `contributor_guide`. -/
theorem upsertGuideList_countP (l : List ContributorGuideRow) (row : ContributorGuideRow) :
    (upsertGuideList l row).countP (fun x => x.repo_id == row.repo_id) =
      max 1 (l.countP (fun x => x.repo_id == row.repo_id)) := by
  unfold upsertGuideList
  by_cases h : l.any (fun r => r.repo_id == row.repo_id)
  · rw [if_pos h, List.countP_map]
    have hcong : l.countP ((fun x => x.repo_id == row.repo_id) ∘ (fun r =>
        if r.repo_id == row.repo_id then
          { r with getting_started := row.getting_started,
                   safe_areas := row.safe_areas,
                   caution_areas := row.caution_areas,
                   feature_extension_guide := row.feature_extension_guide } else r)) =
        l.countP (fun x => x.repo_id == row.repo_id) := by
      refine List.countP_congr ?_
      intro x _
      by_cases hp : x.repo_id = row.repo_id <;> simp [hp]
    rw [hcong]
    have hpos : 0 < l.countP (fun x => x.repo_id == row.repo_id) := by
      rw [List.countP_pos_iff]
      exact List.any_eq_true.mp h
    omega
  · rw [if_neg h, List.countP_append]
    have h0 : l.countP (fun x => x.repo_id == row.repo_id) = 0 := by
      rw [List.countP_eq_zero]
      intro a ha hpa
      exact h (List.any_eq_true.mpr ⟨a, ha, hpa⟩)
    simp [h0, List.countP_cons]

/-- Instance of `upsertArchList_countP` with the row's repository id made
explicit, for rewriting goals that mention the id directly. -/
theorem upsertArchList_countP_id (l : List ArchitectureSummaryRow)
    (row : ArchitectureSummaryRow) (rid : String) (h : row.repo_id = rid) :
    (upsertArchList l row).countP (fun x => x.repo_id == rid) =
      max 1 (l.countP (fun x => x.repo_id == rid)) := by
  subst h
  exact upsertArchList_countP l row

/-- As `upsertArchList_countP_id`, for `issues_insights`. -/
theorem upsertIssuesList_countP_id (l : List IssuesInsightsRow)
    (row : IssuesInsightsRow) (rid : String) (h : row.repo_id = rid) :
    (upsertIssuesList l row).countP (fun x => x.repo_id == rid) =
      max 1 (l.countP (fun x => x.repo_id == rid)) := by
  subst h
  exact upsertIssuesList_countP l row

/-- As `upsertArchList_countP_id`, for `contributor_guide`. -/
theorem upsertGuideList_countP_id (l : List ContributorGuideRow)
    (row : ContributorGuideRow) (rid : String) (h : row.repo_id = rid) :
    (upsertGuideList l row).countP (fun x => x.repo_id == rid) =
      max 1 (l.countP (fun x => x.repo_id == rid)) := by
  subst h
  exact upsertGuideList_countP l row

/-- One tech-stack row is inserted per dict item. -/
theorem techRowsFrom_length (repo_id : String) (counter : Nat) (items : List Json)
    (h : items.all Json.isObj = true) :
    (techRowsFrom repo_id counter items).length = items.length := by
  induction items generalizing counter with
  | nil => rfl
  | cons item rest ih =>
      rw [List.all_cons, Bool.and_eq_true] at h
      cases item with
      | obj fields => simp [techRowsFrom, ih _ h.2]
      | null => simp [Json.isObj] at h
      | bool b => simp [Json.isObj] at h
      | num n => simp [Json.isObj] at h
      | str t => simp [Json.isObj] at h
      | arr xs => simp [Json.isObj] at h

set_option maxHeartbeats 2000000 in
/-- C3 as amended: on the success path the artifact writes and the flip of
the session to `completed` do commit together in the single final
transaction — a successful run commits exactly three times, the first two
commits (repository upsert, session creation) leave every artifact table
exactly as it was before the run, and the last committed snapshot is the
final working state, whose newest session is `completed`.  (Per the
counterexample, the failure path does not share this atomicity: its failure
commit can publish partially staged artifact rows.) -/
theorem C3_amended_success_commits_artifact_atomically
    (env : GeminiEnv) (oracle : Oracle) (url : String) (db : DBState) (counter : Nat)
    (o r : String) (hparse : parse_repo_url url = Except.ok (o, r))
    (m : Metadata) (hmeta : oracle.metadata = Except.ok m)
    (htech : (techItemsOf env oracle m.language).all Json.isObj = true) :
    ∃ rid,
      (runAnalysis env oracle url db counter).1 = Except.ok rid
      ∧ (runAnalysis env oracle url db counter).2.committed.map DBState.tech_stack =
          [db.tech_stack, db.tech_stack,
           (runAnalysis env oracle url db counter).2.db.tech_stack]
      ∧ (runAnalysis env oracle url db counter).2.committed.map DBState.architecture_summary =
          [db.architecture_summary, db.architecture_summary,
           (runAnalysis env oracle url db counter).2.db.architecture_summary]
      ∧ (runAnalysis env oracle url db counter).2.committed.map DBState.issues_insights =
          [db.issues_insights, db.issues_insights,
           (runAnalysis env oracle url db counter).2.db.issues_insights]
      ∧ (runAnalysis env oracle url db counter).2.committed.map DBState.contributor_guide =
          [db.contributor_guide, db.contributor_guide,
           (runAnalysis env oracle url db counter).2.db.contributor_guide]
      ∧ (runAnalysis env oracle url db counter).2.committed.map DBState.repo_files =
          [db.repo_files, db.repo_files,
           (runAnalysis env oracle url db counter).2.db.repo_files]
      ∧ (runAnalysis env oracle url db counter).2.committed.getLast? =
          some (runAnalysis env oracle url db counter).2.db
      ∧ ((runAnalysis env oracle url db counter).2.db.sessions.getLast?).map
          AnalysisSessionRow.status = some "completed" := by
  cases hf : db.repositories.find? (fun row => row.repo_url == url) with
  | none =>
      refine ⟨toString counter, ?_, ?_, ?_, ?_, ?_, ?_, ?_, ?_⟩ <;>
      simp [runAnalysis, analyze_repository, initState, hparse, hf, hmeta, htech,
            analysis_body, seg_metadata_and_rows, seg_gather, seg_llm_and_store,
            seg_finish, get_repo_metadata, get_readme, get_repository_tree,
            get_issues, emit, commitDB, mModify, modifyDB, freshId, mGet,
            mRaise, mTryCatch, M_bind_eval, M_pure_eval,
            fetch_file_contents_eval, analyze_project_overview,
            generate_content_eval, analyze_tech_stack_eval,
            store_tech_items_eval, analyze_architecture_eval,
            upsert_architecture, analyze_issues_eval, upsert_issues,
            generate_contributor_guide_eval, upsert_guide,
            store_repo_files_eval, List.getLast?_concat]
  | some r0 =>
      refine ⟨r0.id, ?_, ?_, ?_, ?_, ?_, ?_, ?_, ?_⟩ <;>
      simp [runAnalysis, analyze_repository, initState, hparse, hf, hmeta, htech,
            analysis_body, seg_metadata_and_rows, seg_gather, seg_llm_and_store,
            seg_finish, get_repo_metadata, get_readme, get_repository_tree,
            get_issues, emit, commitDB, mModify, modifyDB, freshId, mGet,
            mRaise, mTryCatch, M_bind_eval, M_pure_eval,
            fetch_file_contents_eval, analyze_project_overview,
            generate_content_eval, analyze_tech_stack_eval,
            store_tech_items_eval, analyze_architecture_eval,
            upsert_architecture, analyze_issues_eval, upsert_issues,
            generate_contributor_guide_eval, upsert_guide,
            store_repo_files_eval, List.getLast?_concat]

/-- Witness for `C3_amended_success_commits_artifact_atomically` at the
healthy mock-mode scenario over the empty store. -/
theorem C3_amended_success_witness :
    parse_repo_url acmeUrl = Except.ok ("acme", "widgets")
    ∧ acmeOracle.metadata = Except.ok acmeMetadata
    ∧ (techItemsOf mockEnv acmeOracle acmeMetadata.language).all Json.isObj = true
    ∧ (∃ rid,
        (runAnalysis mockEnv acmeOracle acmeUrl emptyDB 0).1 = Except.ok rid
        ∧ (runAnalysis mockEnv acmeOracle acmeUrl emptyDB 0).2.committed.map DBState.tech_stack =
            [emptyDB.tech_stack, emptyDB.tech_stack,
             (runAnalysis mockEnv acmeOracle acmeUrl emptyDB 0).2.db.tech_stack]
        ∧ (runAnalysis mockEnv acmeOracle acmeUrl emptyDB 0).2.committed.map DBState.architecture_summary =
            [emptyDB.architecture_summary, emptyDB.architecture_summary,
             (runAnalysis mockEnv acmeOracle acmeUrl emptyDB 0).2.db.architecture_summary]
        ∧ (runAnalysis mockEnv acmeOracle acmeUrl emptyDB 0).2.committed.map DBState.issues_insights =
            [emptyDB.issues_insights, emptyDB.issues_insights,
             (runAnalysis mockEnv acmeOracle acmeUrl emptyDB 0).2.db.issues_insights]
        ∧ (runAnalysis mockEnv acmeOracle acmeUrl emptyDB 0).2.committed.map DBState.contributor_guide =
            [emptyDB.contributor_guide, emptyDB.contributor_guide,
             (runAnalysis mockEnv acmeOracle acmeUrl emptyDB 0).2.db.contributor_guide]
        ∧ (runAnalysis mockEnv acmeOracle acmeUrl emptyDB 0).2.committed.map DBState.repo_files =
            [emptyDB.repo_files, emptyDB.repo_files,
             (runAnalysis mockEnv acmeOracle acmeUrl emptyDB 0).2.db.repo_files]
        ∧ (runAnalysis mockEnv acmeOracle acmeUrl emptyDB 0).2.committed.getLast? =
            some (runAnalysis mockEnv acmeOracle acmeUrl emptyDB 0).2.db
        ∧ ((runAnalysis mockEnv acmeOracle acmeUrl emptyDB 0).2.db.sessions.getLast?).map
            AnalysisSessionRow.status = some "completed") := by
  exact ⟨rfl, rfl, rfl,
    C3_amended_success_commits_artifact_atomically mockEnv acmeOracle acmeUrl
      emptyDB 0 "acme" "widgets" rfl acmeMetadata rfl rfl⟩

set_option maxHeartbeats 2000000 in
/-- C4 as amended: an exception raised after the session row exists (here: a
shape-invalid tech-stack list reaching `tech_item.get`) is caught by the
handler, which marks the newest session `failed`, stamps its completion
time, and commits — but the `AnalysisSession` schema has no error-message
column, so no message is persisted, and the handler then re-raises a
wrapping `ValueError`, which does propagate to the caller. -/
theorem C4_amended_failure_marks_failed_commits_and_reraises
    (env : GeminiEnv) (oracle : Oracle) (url : String) (db : DBState) (counter : Nat)
    (o r : String) (hparse : parse_repo_url url = Except.ok (o, r))
    (m : Metadata) (hmeta : oracle.metadata = Except.ok m)
    (pre : List Json) (bad : Json) (rest : List Json)
    (hitems : techItemsOf env oracle m.language = pre ++ bad :: rest)
    (hpre : pre.all Json.isObj = true) (hbad : bad.isObj = false) :
    (runAnalysis env oracle url db counter).1 =
      Except.error (PyErr.valueError "Analysis failed: object has no attribute get")
    ∧ ((runAnalysis env oracle url db counter).2.db.sessions.getLast?).map
        (fun row => (row.status, row.completed_at)) = some ("failed", some pyUtcnow)
    ∧ (runAnalysis env oracle url db counter).2.committed.getLast? =
        some (runAnalysis env oracle url db counter).2.db := by
  cases hf : db.repositories.find? (fun row => row.repo_url == url) with
  | none =>
      refine ⟨?_, ?_, ?_⟩ <;>
      simp [runAnalysis, analyze_repository, initState, hparse, hf, hmeta,
            analysis_body, seg_metadata_and_rows, seg_gather, seg_llm_and_store,
            seg_finish, get_repo_metadata, get_readme, get_repository_tree,
            get_issues, emit, commitDB, mModify, modifyDB, freshId, mGet,
            mRaise, mTryCatch, M_bind_eval, M_pure_eval,
            fetch_file_contents_eval, analyze_project_overview,
            generate_content_eval, analyze_tech_stack_eval, hitems,
            store_tech_items_fail _ _ _ _ hpre hbad,
            analysis_failure_handler, PyErr.message, List.getLast?_concat]
  | some r0 =>
      refine ⟨?_, ?_, ?_⟩ <;>
      simp [runAnalysis, analyze_repository, initState, hparse, hf, hmeta,
            analysis_body, seg_metadata_and_rows, seg_gather, seg_llm_and_store,
            seg_finish, get_repo_metadata, get_readme, get_repository_tree,
            get_issues, emit, commitDB, mModify, modifyDB, freshId, mGet,
            mRaise, mTryCatch, M_bind_eval, M_pure_eval,
            fetch_file_contents_eval, analyze_project_overview,
            generate_content_eval, analyze_tech_stack_eval, hitems,
            store_tech_items_fail _ _ _ _ hpre hbad,
            analysis_failure_handler, PyErr.message, List.getLast?_concat]

/-- Witness for `C4_amended_failure_marks_failed_commits_and_reraises` with
a configured client whose tech-stack response is the JSON list `[1]`. -/
theorem C4_amended_failure_witness :
    parse_repo_url acmeUrl = Except.ok ("acme", "widgets")
    ∧ badTechOracle.metadata = Except.ok acmeMetadata
    ∧ techItemsOf liveEnv badTechOracle acmeMetadata.language = [] ++ Json.num 1 :: []
    ∧ ([] : List Json).all Json.isObj = true
    ∧ (Json.num 1).isObj = false
    ∧ (runAnalysis liveEnv badTechOracle acmeUrl emptyDB 0).1 =
        Except.error (PyErr.valueError "Analysis failed: object has no attribute get")
    ∧ ((runAnalysis liveEnv badTechOracle acmeUrl emptyDB 0).2.db.sessions.getLast?).map
        (fun row => (row.status, row.completed_at)) = some ("failed", some pyUtcnow)
    ∧ (runAnalysis liveEnv badTechOracle acmeUrl emptyDB 0).2.committed.getLast? =
        some (runAnalysis liveEnv badTechOracle acmeUrl emptyDB 0).2.db := by
  have h := C4_amended_failure_marks_failed_commits_and_reraises liveEnv
    badTechOracle acmeUrl emptyDB 0 "acme" "widgets" rfl acmeMetadata rfl
    [] (Json.num 1) [] rfl rfl rfl
  exact ⟨rfl, rfl, rfl, rfl, rfl, h.1, h.2.1, h.2.2⟩

set_option maxHeartbeats 2000000 in
/-- C5 as amended: tech-stack output that does not parse to a JSON list —
because `json.loads` fails or because it parses to a non-list value — takes
the deterministic fallback and the job still completes, with the fallback
row naming the repository's primary language as sole entry; but, per the
counterexample, output that parses to a list of non-objects is returned
as-is and fails the job during storage. -/
theorem C5_amended_unparsable_output_completes_via_fallback
    (env : GeminiEnv) (oracle : Oracle) (url : String) (db : DBState) (counter : Nat)
    (o r : String) (hparse : parse_repo_url url = Except.ok (o, r))
    (m : Metadata) (hmeta : oracle.metadata = Except.ok m)
    (hraw : ∀ items : List Json,
      effectiveRaw env oracle PromptKind.techStack ≠ some (Json.arr items)) :
    ∃ rid tid,
      (runAnalysis env oracle url db counter).1 = Except.ok rid
      ∧ ((runAnalysis env oracle url db counter).2.db.sessions.getLast?).map
          AnalysisSessionRow.status = some "completed"
      ∧ (runAnalysis env oracle url db counter).2.db.tech_stack =
          db.tech_stack ++
          [{ id := tid, repo_id := rid,
             name := match m.language with | some s => Json.str s | none => Json.null,
             category := Json.str "Programming Language",
             reasoning := Json.str "Primary language of the repository" }] := by
  have hfb : techItemsOf env oracle m.language = [techStackFallback m.language] := by
    cases hr : effectiveRaw env oracle PromptKind.techStack with
    | none => simp [techItemsOf, hr]
    | some j =>
        cases j with
        | arr items => exact absurd hr (hraw items)
        | null => simp [techItemsOf, hr]
        | bool b => simp [techItemsOf, hr]
        | num n => simp [techItemsOf, hr]
        | str t => simp [techItemsOf, hr]
        | obj fields => simp [techItemsOf, hr]
  have htech : (techItemsOf env oracle m.language).all Json.isObj = true := by
    rw [hfb]
    simp [techStackFallback, Json.isObj]
  cases hf : db.repositories.find? (fun row => row.repo_url == url) with
  | none =>
      refine ⟨toString counter, toString (counter + 2), ?_, ?_, ?_⟩ <;>
      simp [runAnalysis, analyze_repository, initState, hparse, hf, hmeta, htech,
            analysis_body, seg_metadata_and_rows, seg_gather, seg_llm_and_store,
            seg_finish, get_repo_metadata, get_readme, get_repository_tree,
            get_issues, emit, commitDB, mModify, modifyDB, freshId, mGet,
            mRaise, mTryCatch, M_bind_eval, M_pure_eval,
            fetch_file_contents_eval, analyze_project_overview,
            generate_content_eval, analyze_tech_stack_eval,
            store_tech_items_eval, analyze_architecture_eval,
            upsert_architecture, analyze_issues_eval, upsert_issues,
            generate_contributor_guide_eval, upsert_guide,
            store_repo_files_eval, hfb, techRowsFrom,
            techRowFrom, techStackFallback, pyGetD, Json.isObj,
            List.getLast?_concat]
  | some r0 =>
      refine ⟨r0.id, toString (counter + 1), ?_, ?_, ?_⟩ <;>
      simp [runAnalysis, analyze_repository, initState, hparse, hf, hmeta, htech,
            analysis_body, seg_metadata_and_rows, seg_gather, seg_llm_and_store,
            seg_finish, get_repo_metadata, get_readme, get_repository_tree,
            get_issues, emit, commitDB, mModify, modifyDB, freshId, mGet,
            mRaise, mTryCatch, M_bind_eval, M_pure_eval,
            fetch_file_contents_eval, analyze_project_overview,
            generate_content_eval, analyze_tech_stack_eval,
            store_tech_items_eval, analyze_architecture_eval,
            upsert_architecture, analyze_issues_eval, upsert_issues,
            generate_contributor_guide_eval, upsert_guide,
            store_repo_files_eval, hfb, techRowsFrom,
            techRowFrom, techStackFallback, pyGetD, Json.isObj,
            List.getLast?_concat]

/-- Witness for `C5_amended_unparsable_output_completes_via_fallback` at two
configured-client instances: tech-stack text that `json.loads` cannot parse,
and tech-stack text parsing to a JSON dict (valid JSON, not a list). -/
theorem C5_amended_unparsable_witness :
    parse_repo_url acmeUrl = Except.ok ("acme", "widgets")
    ∧ unparsableTechOracle.metadata = Except.ok acmeMetadata
    ∧ effectiveRaw liveEnv unparsableTechOracle PromptKind.techStack = none
    ∧ dictTechOracle.metadata = Except.ok acmeMetadata
    ∧ effectiveRaw liveEnv dictTechOracle PromptKind.techStack =
        some (Json.obj [("name", Json.str "X")])
    ∧ (∃ rid tid,
        (runAnalysis liveEnv unparsableTechOracle acmeUrl emptyDB 0).1 = Except.ok rid
        ∧ ((runAnalysis liveEnv unparsableTechOracle acmeUrl emptyDB 0).2.db.sessions.getLast?).map
            AnalysisSessionRow.status = some "completed"
        ∧ (runAnalysis liveEnv unparsableTechOracle acmeUrl emptyDB 0).2.db.tech_stack =
            emptyDB.tech_stack ++
            [{ id := tid, repo_id := rid,
               name := match acmeMetadata.language with | some s => Json.str s | none => Json.null,
               category := Json.str "Programming Language",
               reasoning := Json.str "Primary language of the repository" }])
    ∧ (∃ rid tid,
        (runAnalysis liveEnv dictTechOracle acmeUrl emptyDB 0).1 = Except.ok rid
        ∧ ((runAnalysis liveEnv dictTechOracle acmeUrl emptyDB 0).2.db.sessions.getLast?).map
            AnalysisSessionRow.status = some "completed"
        ∧ (runAnalysis liveEnv dictTechOracle acmeUrl emptyDB 0).2.db.tech_stack =
            emptyDB.tech_stack ++
            [{ id := tid, repo_id := rid,
               name := match acmeMetadata.language with | some s => Json.str s | none => Json.null,
               category := Json.str "Programming Language",
               reasoning := Json.str "Primary language of the repository" }]) := by
  refine ⟨rfl, rfl, rfl, rfl, rfl, ?_, ?_⟩
  · exact C5_amended_unparsable_output_completes_via_fallback liveEnv
      unparsableTechOracle acmeUrl emptyDB 0 "acme" "widgets" rfl acmeMetadata rfl
      (fun items h => Option.noConfusion h)
  · exact C5_amended_unparsable_output_completes_via_fallback liveEnv
      dictTechOracle acmeUrl emptyDB 0 "acme" "widgets" rfl acmeMetadata rfl
      (fun items h => Json.noConfusion (Option.some.inj h))

/-- C6 as amended: when the component is unconfigured, and likewise when a
configured transport call raises, the adapter returns the mock's fixed
two-entry tech stack — Python and FastAPI, independent of the analyzed
repository; the deterministic primary-language sole-entry fallback is taken
exactly when the effective tech-stack output does not parse to a JSON list
(parse failure or a non-list value), and `analyze_issues` and
`generate_contributor_guide` likewise return their fixed non-empty fallback
dicts when their effective output does not parse to a JSON dict. -/
theorem C6_amended_fallback_characterization (env : GeminiEnv) (oracle : Oracle)
    (ctx : Context) (s : RunState) :
    mock_response PromptKind.techStack = some (Json.arr mockTechStackItems)
    ∧ (env.usingMock = true →
        (analyze_tech_stack env oracle ctx s).1 = Except.ok mockTechStackItems)
    ∧ (∀ msg, env.usingMock = false →
        oracle.llm PromptKind.techStack = LlmResult.err msg →
        (analyze_tech_stack env oracle ctx s).1 = Except.ok mockTechStackItems)
    ∧ ((∀ items : List Json,
          effectiveRaw env oracle PromptKind.techStack ≠ some (Json.arr items)) →
        (analyze_tech_stack env oracle ctx s).1 =
          Except.ok [techStackFallback ctx.primary_language])
    ∧ (∀ items : List Json,
        effectiveRaw env oracle PromptKind.techStack = some (Json.arr items) →
        (analyze_tech_stack env oracle ctx s).1 = Except.ok items)
    ∧ ((∀ fields : List (String × Json),
          effectiveRaw env oracle PromptKind.issues ≠ some (Json.obj fields)) →
        (analyze_issues env oracle ctx s).1 = Except.ok issuesFallback)
    ∧ ((∀ fields : List (String × Json),
          effectiveRaw env oracle PromptKind.guide ≠ some (Json.obj fields)) →
        (generate_contributor_guide env oracle ctx s).1 = Except.ok guideFallback) := by
  refine ⟨rfl, ?_, ?_, ?_, ?_, ?_, ?_⟩
  · intro h
    simp [analyze_tech_stack_eval, techItemsOf, effectiveRaw, h, mock_response,
          mockTechStackItems]
  · intro msg h1 h2
    simp [analyze_tech_stack_eval, techItemsOf, effectiveRaw, h1, h2,
          mock_response, mockTechStackItems]
  · intro hraw
    have hfb : techItemsOf env oracle ctx.primary_language =
        [techStackFallback ctx.primary_language] := by
      cases hr : effectiveRaw env oracle PromptKind.techStack with
      | none => simp [techItemsOf, hr]
      | some j =>
          cases j with
          | arr items => exact absurd hr (hraw items)
          | null => simp [techItemsOf, hr]
          | bool b => simp [techItemsOf, hr]
          | num n => simp [techItemsOf, hr]
          | str t => simp [techItemsOf, hr]
          | obj fields => simp [techItemsOf, hr]
    simp [analyze_tech_stack_eval, hfb]
  · intro items hr
    simp [analyze_tech_stack_eval, techItemsOf, hr]
  · intro hraw
    have hfb : issuesDataOf env oracle = issuesFallback := by
      cases hr : effectiveRaw env oracle PromptKind.issues with
      | none => simp [issuesDataOf, hr]
      | some j =>
          cases j with
          | obj fields => exact absurd hr (hraw fields)
          | null => simp [issuesDataOf, hr]
          | bool b => simp [issuesDataOf, hr]
          | num n => simp [issuesDataOf, hr]
          | str t => simp [issuesDataOf, hr]
          | arr items => simp [issuesDataOf, hr]
    simp [analyze_issues_eval, hfb]
  · intro hraw
    have hfb : guideDataOf env oracle = guideFallback := by
      cases hr : effectiveRaw env oracle PromptKind.guide with
      | none => simp [guideDataOf, hr]
      | some j =>
          cases j with
          | obj fields => exact absurd hr (hraw fields)
          | null => simp [guideDataOf, hr]
          | bool b => simp [guideDataOf, hr]
          | num n => simp [guideDataOf, hr]
          | str t => simp [guideDataOf, hr]
          | arr items => simp [guideDataOf, hr]
    simp [generate_contributor_guide_eval, hfb]

/-- Witness for `C6_amended_fallback_characterization`, exercising every
branch: the unconfigured service on a Rust repository context; a configured
service whose transport raises; configured services whose tech-stack text is
unparsable, parses to a dict, and parses to a list; and a configured service
whose issues and guide texts parse to lists instead of dicts. -/
theorem C6_amended_fallback_witness :
    mockEnv.usingMock = true
    ∧ (analyze_tech_stack mockEnv acmeOracle rustCtx (initState emptyDB 0)).1 =
        Except.ok mockTechStackItems
    ∧ liveEnv.usingMock = false
    ∧ acmeOracle.llm PromptKind.techStack = LlmResult.err "transport unavailable"
    ∧ (analyze_tech_stack liveEnv acmeOracle rustCtx (initState emptyDB 0)).1 =
        Except.ok mockTechStackItems
    ∧ effectiveRaw liveEnv unparsableTechOracle PromptKind.techStack = none
    ∧ (analyze_tech_stack liveEnv unparsableTechOracle rustCtx (initState emptyDB 0)).1 =
        Except.ok [techStackFallback (some "Rust")]
    ∧ effectiveRaw liveEnv dictTechOracle PromptKind.techStack =
        some (Json.obj [("name", Json.str "X")])
    ∧ (analyze_tech_stack liveEnv dictTechOracle rustCtx (initState emptyDB 0)).1 =
        Except.ok [techStackFallback (some "Rust")]
    ∧ effectiveRaw liveEnv liveOracle PromptKind.techStack =
        some (Json.arr mockTechStackItems)
    ∧ (analyze_tech_stack liveEnv liveOracle rustCtx (initState emptyDB 0)).1 =
        Except.ok mockTechStackItems
    ∧ effectiveRaw liveEnv dictTechOracle PromptKind.issues = some (Json.arr [])
    ∧ (analyze_issues liveEnv dictTechOracle rustCtx (initState emptyDB 0)).1 =
        Except.ok issuesFallback
    ∧ effectiveRaw liveEnv dictTechOracle PromptKind.guide = some (Json.arr [])
    ∧ (generate_contributor_guide liveEnv dictTechOracle rustCtx (initState emptyDB 0)).1 =
        Except.ok guideFallback := by
  have hmock := C6_amended_fallback_characterization mockEnv acmeOracle rustCtx
    (initState emptyDB 0)
  have herr := C6_amended_fallback_characterization liveEnv acmeOracle rustCtx
    (initState emptyDB 0)
  have hnone := C6_amended_fallback_characterization liveEnv unparsableTechOracle
    rustCtx (initState emptyDB 0)
  have hdict := C6_amended_fallback_characterization liveEnv dictTechOracle
    rustCtx (initState emptyDB 0)
  have hlist := C6_amended_fallback_characterization liveEnv liveOracle
    rustCtx (initState emptyDB 0)
  exact ⟨rfl, hmock.2.1 rfl, rfl, rfl,
    herr.2.2.1 "transport unavailable" rfl rfl,
    rfl,
    hnone.2.2.2.1 (fun items h => Option.noConfusion h),
    rfl,
    hdict.2.2.2.1 (fun items h => Json.noConfusion (Option.some.inj h)),
    rfl,
    hlist.2.2.2.2.1 mockTechStackItems rfl,
    rfl,
    hdict.2.2.2.2.2.1 (fun fields h => Json.noConfusion (Option.some.inj h)),
    rfl,
    hdict.2.2.2.2.2.2 (fun fields h => Json.noConfusion (Option.some.inj h))⟩

set_option maxHeartbeats 2000000 in
/-- C7 as amended: a successful run overwrites the one-row-per-repository
projections (`ArchitectureSummary`, `IssuesInsights`, `ContributorGuide`) in
place — after the run each holds exactly one row for the repository when it
held at most one before — but the `TechStack` and `RepoFile` rows are
appended fresh every run, one tech row per returned item, with nothing
deleted, so they accumulate across repeated analyses. -/
theorem C7_amended_singleton_tables_upsert_while_tech_rows_accumulate
    (env : GeminiEnv) (oracle : Oracle) (url : String) (db : DBState) (counter : Nat)
    (o r : String) (hparse : parse_repo_url url = Except.ok (o, r))
    (m : Metadata) (hmeta : oracle.metadata = Except.ok m)
    (htech : (techItemsOf env oracle m.language).all Json.isObj = true) :
    ∃ rid cnt,
      (runAnalysis env oracle url db counter).1 = Except.ok rid
      ∧ (runAnalysis env oracle url db counter).2.db.tech_stack =
          db.tech_stack ++ techRowsFrom rid cnt (techItemsOf env oracle m.language)
      ∧ (techRowsFrom rid cnt (techItemsOf env oracle m.language)).length =
          (techItemsOf env oracle m.language).length
      ∧ (∃ newFiles, (runAnalysis env oracle url db counter).2.db.repo_files =
          db.repo_files ++ newFiles)
      ∧ (runAnalysis env oracle url db counter).2.db.architecture_summary.countP
          (fun x => x.repo_id == rid) =
          max 1 (db.architecture_summary.countP (fun x => x.repo_id == rid))
      ∧ (runAnalysis env oracle url db counter).2.db.issues_insights.countP
          (fun x => x.repo_id == rid) =
          max 1 (db.issues_insights.countP (fun x => x.repo_id == rid))
      ∧ (runAnalysis env oracle url db counter).2.db.contributor_guide.countP
          (fun x => x.repo_id == rid) =
          max 1 (db.contributor_guide.countP (fun x => x.repo_id == rid)) := by
  cases hf : db.repositories.find? (fun row => row.repo_url == url) with
  | none =>
      refine ⟨toString counter, counter + 2, ?_, ?_,
              techRowsFrom_length _ _ _ htech,
              ⟨repoFileRowsFrom (toString counter)
                (counter + 2 + (techItemsOf env oracle m.language).length)
                (List.take 30 (oracle.filterImportant oracle.tree 30)), ?_⟩,
              ?_, ?_, ?_⟩ <;>
      simp [runAnalysis, analyze_repository, initState, hparse, hf, hmeta, htech,
            analysis_body, seg_metadata_and_rows, seg_gather, seg_llm_and_store,
            seg_finish, get_repo_metadata, get_readme, get_repository_tree,
            get_issues, emit, commitDB, mModify, modifyDB, freshId, mGet,
            mRaise, mTryCatch, M_bind_eval, M_pure_eval,
            fetch_file_contents_eval, analyze_project_overview,
            generate_content_eval, analyze_tech_stack_eval,
            store_tech_items_eval, analyze_architecture_eval,
            upsert_architecture, analyze_issues_eval, upsert_issues,
            generate_contributor_guide_eval, upsert_guide,
            store_repo_files_eval] <;>
      first
        | rfl
        | exact upsertArchList_countP_id db.architecture_summary _ _ rfl
        | exact upsertIssuesList_countP_id db.issues_insights _ _ rfl
        | exact upsertGuideList_countP_id db.contributor_guide _ _ rfl
  | some r0 =>
      refine ⟨r0.id, counter + 1, ?_, ?_,
              techRowsFrom_length _ _ _ htech,
              ⟨repoFileRowsFrom r0.id
                (counter + 1 + (techItemsOf env oracle m.language).length)
                (List.take 30 (oracle.filterImportant oracle.tree 30)), ?_⟩,
              ?_, ?_, ?_⟩ <;>
      simp [runAnalysis, analyze_repository, initState, hparse, hf, hmeta, htech,
            analysis_body, seg_metadata_and_rows, seg_gather, seg_llm_and_store,
            seg_finish, get_repo_metadata, get_readme, get_repository_tree,
            get_issues, emit, commitDB, mModify, modifyDB, freshId, mGet,
            mRaise, mTryCatch, M_bind_eval, M_pure_eval,
            fetch_file_contents_eval, analyze_project_overview,
            generate_content_eval, analyze_tech_stack_eval,
            store_tech_items_eval, analyze_architecture_eval,
            upsert_architecture, analyze_issues_eval, upsert_issues,
            generate_contributor_guide_eval, upsert_guide,
            store_repo_files_eval] <;>
      first
        | rfl
        | exact upsertArchList_countP_id db.architecture_summary _ _ rfl
        | exact upsertIssuesList_countP_id db.issues_insights _ _ rfl
        | exact upsertGuideList_countP_id db.contributor_guide _ _ rfl

/-- Witness for
`C7_amended_singleton_tables_upsert_while_tech_rows_accumulate` at the
healthy mock-mode scenario over the empty store. -/
theorem C7_amended_upsert_witness :
    parse_repo_url acmeUrl = Except.ok ("acme", "widgets")
    ∧ acmeOracle.metadata = Except.ok acmeMetadata
    ∧ (techItemsOf mockEnv acmeOracle acmeMetadata.language).all Json.isObj = true
    ∧ (∃ rid cnt,
        (runAnalysis mockEnv acmeOracle acmeUrl emptyDB 0).1 = Except.ok rid
        ∧ (runAnalysis mockEnv acmeOracle acmeUrl emptyDB 0).2.db.tech_stack =
            emptyDB.tech_stack ++
            techRowsFrom rid cnt (techItemsOf mockEnv acmeOracle acmeMetadata.language)
        ∧ (techRowsFrom rid cnt (techItemsOf mockEnv acmeOracle acmeMetadata.language)).length =
            (techItemsOf mockEnv acmeOracle acmeMetadata.language).length
        ∧ (∃ newFiles, (runAnalysis mockEnv acmeOracle acmeUrl emptyDB 0).2.db.repo_files =
            emptyDB.repo_files ++ newFiles)
        ∧ (runAnalysis mockEnv acmeOracle acmeUrl emptyDB 0).2.db.architecture_summary.countP
            (fun x => x.repo_id == rid) =
            max 1 (emptyDB.architecture_summary.countP (fun x => x.repo_id == rid))
        ∧ (runAnalysis mockEnv acmeOracle acmeUrl emptyDB 0).2.db.issues_insights.countP
            (fun x => x.repo_id == rid) =
            max 1 (emptyDB.issues_insights.countP (fun x => x.repo_id == rid))
        ∧ (runAnalysis mockEnv acmeOracle acmeUrl emptyDB 0).2.db.contributor_guide.countP
            (fun x => x.repo_id == rid) =
            max 1 (emptyDB.contributor_guide.countP (fun x => x.repo_id == rid))) := by
  exact ⟨rfl, rfl, rfl,
    C7_amended_singleton_tables_upsert_while_tech_rows_accumulate mockEnv
      acmeOracle acmeUrl emptyDB 0 "acme" "widgets" rfl acmeMetadata rfl rfl⟩
